import Mathlib

/-!
# `static/core/api.js`: cookie lookup and the `apiFetch` request wrapper

A shallow embedding of the two functions of `static/core/api.js`,
`getCookie` and `apiFetch`, and of the platform operations they call
(`String.prototype.split`, `trim`, `substring`, `decodeURIComponent`, property
reads and writes on plain objects, object spread, `fetch`, `response.json()`),
followed by theorems about them.

JavaScript strings are sequences of UTF-16 code units; they are modelled as
lists of natural numbers, one number per code unit.
-/

namespace ApiJs

/-! ## Strings -/

/-- A JavaScript string: the list of its UTF-16 code units. -/
abbrev JSString := List Nat

/-- UTF16EncodeCodePoint of ECMA-262: the code units of one code point. -/
def utf16EncodeCodePoint (cp : Nat) : JSString :=
  if cp ≤ 0xFFFF then [cp]
  else [(cp - 0x10000) / 0x400 + 0xD800, (cp - 0x10000) % 0x400 + 0xDC00]

/-- The JavaScript string written by a string literal of the source. -/
def js (s : String) : JSString :=
  s.toList.flatMap fun c => utf16EncodeCodePoint c.toNat

/-- The code unit of `;`. -/
def SEMICOLON : Nat := 0x3B

/-- The code unit of `=`. -/
def EQUALS : Nat := 0x3D

/-- The code unit of `%`. -/
def PERCENT : Nat := 0x25

/-- `s.split(sep)` for a separator of one code unit: the pieces of `s` between
the occurrences of `sep`, in order. The empty string splits into one empty
piece; the result is never empty (`split_ne_nil`), so the first case of the
inner `match` is not reached. -/
def split (sep : Nat) : JSString → List JSString
  | [] => [[]]
  | c :: rest =>
    if c = sep then [] :: split sep rest
    else
      match split sep rest with
      | [] => [[c]]
      | piece :: pieces => (c :: piece) :: pieces

/-- WhiteSpace and LineTerminator code points of ECMA-262 (all of them are in
the basic plane): TAB, LF, VT, FF, CR, the Unicode space separators, NBSP,
LS, PS and the byte order mark. -/
def isWhiteSpace (c : Nat) : Bool :=
  c = 0x09 || c = 0x0A || c = 0x0B || c = 0x0C || c = 0x0D || c = 0x20 ||
  c = 0xA0 || c = 0x1680 || (0x2000 ≤ c && c ≤ 0x200A) || c = 0x2028 ||
  c = 0x2029 || c = 0x202F || c = 0x205F || c = 0x3000 || c = 0xFEFF

/-- `s.trim()`: `s` without its leading and trailing white space. -/
def trim (s : JSString) : JSString :=
  ((s.dropWhile isWhiteSpace).reverse.dropWhile isWhiteSpace).reverse

/-- `s.substring(0, n)`. -/
def substringTo (s : JSString) (n : Nat) : JSString := s.take n

/-- `s.substring(n)`. -/
def substringFrom (s : JSString) (n : Nat) : JSString := s.drop n

/-! ## `decodeURIComponent` -/

/-- The value of a hexadecimal digit code unit. -/
def hexDigit (c : Nat) : Option Nat :=
  if 0x30 ≤ c ∧ c ≤ 0x39 then some (c - 0x30)
  else if 0x41 ≤ c ∧ c ≤ 0x46 then some (c - 0x41 + 10)
  else if 0x61 ≤ c ∧ c ≤ 0x66 then some (c - 0x61 + 10)
  else none

/-- ParseHexOctet of ECMA-262 on the two code units after a `%`. -/
def parseHexOctet (hi lo : Nat) : Option Nat :=
  match hexDigit hi, hexDigit lo with
  | some h, some l => some (16 * h + l)
  | _, _ => none

/-- The number of leading 1 bits of an octet. -/
def leadingOnes (b : Nat) : Nat :=
  if b < 0x80 then 0
  else if b < 0xC0 then 1
  else if b < 0xE0 then 2
  else if b < 0xF0 then 3
  else if b < 0xF8 then 4
  else 5

/-- Whether an octet is a UTF-8 continuation byte `10xxxxxx`. -/
def isContinuation (b : Nat) : Bool := 0x80 ≤ b && b < 0xC0

/-- The code point of a well-formed UTF-8 sequence of two, three or four
octets; `none` for a sequence that is not the UTF-8 encoding of a code point
(a bad continuation byte, an overlong form, a surrogate, a value above
U+10FFFF). -/
def utf8Decode : List Nat → Option Nat
  | [b0, b1] =>
    let v := (b0 - 0xC0) * 0x40 + (b1 - 0x80)
    if isContinuation b1 ∧ 0x80 ≤ v then some v else none
  | [b0, b1, b2] =>
    let v := (b0 - 0xE0) * 0x1000 + (b1 - 0x80) * 0x40 + (b2 - 0x80)
    if isContinuation b1 ∧ isContinuation b2 ∧ 0x800 ≤ v ∧ ¬ (0xD800 ≤ v ∧ v ≤ 0xDFFF)
    then some v else none
  | [b0, b1, b2, b3] =>
    let v := (b0 - 0xF0) * 0x40000 + (b1 - 0x80) * 0x1000 + (b2 - 0x80) * 0x40 + (b3 - 0x80)
    if isContinuation b1 ∧ isContinuation b2 ∧ isContinuation b3 ∧ 0x10000 ≤ v ∧ v ≤ 0x10FFFF
    then some v else none
  | _ => none

/-- The Decode operation of ECMA-262 with an empty set of preserved escapes,
on the code units still to be read. `pending` is the state of the inner loop
over continuation bytes: `none` outside of it, and inside it the octets read
so far for the current code point with the number of octets still to be read
after the next one. `none` as a result stands for the `URIError` the
operation throws. -/
def decodeLoop : JSString → Option (List Nat × Nat) → Option JSString
  | [], none => some []
  | [], some _ => none
  | c :: rest, pending =>
    if c = PERCENT then
      match rest with
      | hi :: lo :: rest2 =>
        match parseHexOctet hi lo with
        | none => none
        | some b =>
          match pending with
          | none =>
            let n := leadingOnes b
            if n = 0 then (decodeLoop rest2 none).map (b :: ·)
            else if n = 1 ∨ n > 4 then none
            else decodeLoop rest2 (some ([b], n - 2))
          | some (octets, 0) =>
            match utf8Decode (octets ++ [b]) with
            | none => none
            | some v => (decodeLoop rest2 none).map (utf16EncodeCodePoint v ++ ·)
          | some (octets, more + 1) => decodeLoop rest2 (some (octets ++ [b], more))
      | _ => none
    else
      match pending with
      | none => (decodeLoop rest none).map (c :: ·)
      | some _ => none

/-- `decodeURIComponent(s)`: the decoded string, or `none` when a `URIError` is
thrown. -/
def decodeURIComponent (s : JSString) : Option JSString := decodeLoop s none

/-! ## Values, objects and failures -/

/-- A JavaScript value as far as this file handles one: the values of JSON,
and `undefined`. Numbers are carried as integers (the code does no arithmetic
on them). An object is the list of its own enumerable properties in the order
in which they were written; the place integer-like keys take in an
enumeration is not modelled, no statement below depends on it. -/
inductive JSValue where
  | undefined : JSValue
  | null : JSValue
  | bool (b : Bool) : JSValue
  | num (n : Int) : JSValue
  | string (s : JSString) : JSValue
  | array (items : List JSValue) : JSValue
  | object (props : List (JSString × JSValue)) : JSValue

/-- The own properties of a plain object, in order. -/
abbrev Props := List (JSString × JSValue)

/-- ToBoolean of ECMA-262: `undefined`, `null`, `false`, `0` and the empty
string are falsy, every other value is truthy. -/
def truthy : JSValue → Bool
  | .undefined => false
  | .null => false
  | .bool b => b
  | .num n => n != 0
  | .string s => !s.isEmpty
  | .array _ => true
  | .object _ => true

/-- The own property `key` of an object, if it has one. -/
def getOwn : Props → JSString → Option JSValue
  | [], _ => none
  | (k, v) :: rest, key => if k = key then some v else getOwn rest key

/-- The property read `obj[key]` on a plain object: `undefined` when the object
has no such property. -/
def getProp (obj : Props) (key : JSString) : JSValue :=
  (getOwn obj key).getD .undefined

/-- The property write `obj[key] = value`: an existing property keeps its
place and takes the new value, a new one is added last. -/
def setProp : Props → JSString → JSValue → Props
  | [], key, value => [(key, value)]
  | (k, v) :: rest, key, value =>
    if k = key then (k, value) :: rest else (k, v) :: setProp rest key value

/-- What a call can fail with. -/
inductive Failure where
  /-- The `URIError` thrown by `decodeURIComponent`. -/
  | uriError : Failure
  /-- Any other thrown value or rejection reason. -/
  | value (v : JSValue) : Failure

/-! ## `getCookie` (lines 3 to 16) -/

/-- The `for` loop of `getCookie` over the entries that are still to be
visited: the first entry whose trimmed text begins with `name=` decides the
result and ends the loop; when no entry is left, `cookieValue` is still
`null`. -/
def getCookieLoop (name : JSString) : List JSString → Except Failure JSValue
  | [] => .ok .null
  | entry :: entries =>
    let cookie := trim entry
    if substringTo cookie (name.length + 1) = name ++ [EQUALS] then
      match decodeURIComponent (substringFrom cookie (name.length + 1)) with
      | some value => .ok (.string value)
      | none => .error .uriError
    else getCookieLoop name entries

/-- The function `getCookie(name)`, with `document.cookie` as a parameter. -/
def getCookie (documentCookie : JSString) (name : JSString) : Except Failure JSValue :=
  if documentCookie ≠ [] then getCookieLoop name (split SEMICOLON documentCookie)
  else .ok .null

/-! ### The lookup as the specification words it -/

/-- The entries of a cookie jar: the jar split on `;`, each piece trimmed. -/
def jarEntries (jar : JSString) : List JSString :=
  (split SEMICOLON jar).map trim

/-- The first entry of the jar, left to right, that starts with the name
followed by `=`. -/
def firstMatchingEntry (jar name : JSString) : Option JSString :=
  (jarEntries jar).find? fun entry => (name ++ [EQUALS]).isPrefixOf entry

/-! ## Requests and responses -/

/-- The `body` option of a request. -/
inductive Body where
  /-- No body. -/
  | undefined : Body
  /-- A string payload. -/
  | text (payload : JSString) : Body
  /-- A `FormData` instance, with its entries. -/
  | formData (entries : List (JSString × JSString)) : Body
  /-- Any other payload (a `Blob`, a `URLSearchParams`, a buffer), named by its
  class. -/
  | other (className : JSString) : Body
deriving DecidableEq

/-- The test `body instanceof FormData`. -/
def Body.instanceofFormData : Body → Bool
  | .formData _ => true
  | _ => false

/-- The `options` argument of `apiFetch`: the `headers`, a plain object, when
there is one, the `body`, and every other option. -/
structure Options where
  headers : Option Props
  body : Body
  others : Props

/-- The default value `{}` of the `options` parameter. -/
def Options.empty : Options := { headers := none, body := .undefined, others := [] }

/-- A response of the transport: its status code and how `response.json()`
settles, fulfilled with the parsed body or rejected with a reason. -/
structure Response where
  status : Nat
  json : Except JSValue JSValue

/-- The property `response.ok` of the Fetch standard: the status is in the
range 200 to 299. -/
def Response.ok (response : Response) : Bool :=
  200 ≤ response.status && response.status ≤ 299

/-- The ambient state a call reads and the transport it calls:
`document.cookie`, `localStorage.getItem` and `fetch`, which is fulfilled with
a response or rejected with a reason. -/
structure Env where
  documentCookie : JSString
  getItem : JSString → Option JSString
  fetch : JSString → Options → Except JSValue Response

/-- The calls a run of `apiFetch` makes to the transport and the response. -/
inductive Event where
  /-- The call `fetch(url, options)`. -/
  | fetch (url : JSString) (options : Options) : Event
  /-- A call of `response.json()`. -/
  | json : Event

/-- A run of `apiFetch`: the calls it made, in order, and how the promise it
returns settles. -/
structure Run where
  events : List Event
  result : Except Failure JSValue

/-- The own enumerable properties an object spread `...value` copies: those of
an object, the indexed elements of an array, the indexed code units of a
string, and none for any other value. -/
def ownEnumerableProps : JSValue → Props
  | .object props => props
  | .array items => items.enum.map fun p => (js (toString p.1), p.2)
  | .string s => s.enum.map fun p => (js (toString p.1), .string [p.2])
  | _ => []

/-- The object literal `{ ..., ...source }`: onto the properties written so
far, `target`, every own enumerable property of `source` is written, in
order. -/
def objectSpread (target : Props) (source : JSValue) : Props :=
  (ownEnumerableProps source).foldl (fun obj p => setProp obj p.1 p.2) target

/-! ## `apiFetch` (lines 18 to 41) -/

/-- Lines 20 to 31: the options handed to `fetch`, given the value of
`csrftoken`. The source writes the headers into the caller's object; the
result is that object after the writes. -/
def requestOptions (getItem : JSString → Option JSString) (csrftoken : JSValue)
    (options : Options) : Options :=
  -- options.headers = options.headers || {};
  let headers := options.headers.getD []
  let headers :=
    if !truthy (getProp headers (js "Content-Type")) && !options.body.instanceofFormData then
      setProp headers (js "Content-Type") (.string (js "application/json"))
    else headers
  let headers :=
    if !truthy (getProp headers (js "X-CSRFToken")) then
      setProp headers (js "X-CSRFToken") csrftoken
    else headers
  -- const token = localStorage.getItem('apiToken'); if (token) { ... }
  let headers :=
    match getItem (js "apiToken") with
    | some token =>
      if token ≠ [] then
        setProp headers (js "Authorization") (.string (js "Token " ++ token))
      else headers
    | none => headers
  { options with headers := some headers }

/-- Lines 33 to 40: what is done with the response. -/
def settle (response : Response) : Run :=
  if !response.ok then
    -- const error = await response.json().catch(() => ({}));
    let error : JSValue :=
      match response.json with
      | .ok parsed => parsed
      | .error _ => .object []
    -- throw { status: response.status, ...error };
    { events := [.json]
      result := .error (.value (.object
        (objectSpread [(js "status", .num response.status)] error))) }
  else if response.status ≠ 204 then
    -- return response.json();
    { events := [.json]
      result :=
        match response.json with
        | .ok parsed => .ok parsed
        | .error reason => .error (.value reason) }
  else
    { events := [], result := .ok .null }

/-- The function `apiFetch(url, options)`. A `URIError` of `getCookie` and a
rejection of `fetch` reject the returned promise as they are. -/
def apiFetch (env : Env) (url : JSString) (options : Options) : Run :=
  match getCookie env.documentCookie (js "csrftoken") with
  | .error failure => { events := [], result := .error failure }
  | .ok csrftoken =>
    let options := requestOptions env.getItem csrftoken options
    match env.fetch url options with
    | .error reason =>
      { events := [.fetch url options], result := .error (.value reason) }
    | .ok response =>
      { events := .fetch url options :: (settle response).events
        result := (settle response).result }

/-! ## Sample calls -/

/-- An environment with the given cookie jar, the given `apiToken` entry in the
token store, and a transport that answers every request with `reply`. -/
def sampleEnv (cookie : JSString) (apiToken : Option JSString)
    (reply : Except JSValue Response) : Env where
  documentCookie := cookie
  getItem := fun key => if key = js "apiToken" then apiToken else none
  fetch := fun _ _ => reply

/-- A response with status 200 and the body `{"id": 7}`. -/
def okResponse : Response :=
  { status := 200, json := .ok (.object [(js "id", .num 7)]) }

/-- A response with status 204 and no body: parsing it would fail. -/
def noContentResponse : Response :=
  { status := 204, json := .error (.string (js "SyntaxError")) }

/-- A response with status 404 and the body `{"detail": "not found"}`. -/
def notFoundResponse : Response :=
  { status := 404, json := .ok (.object [(js "detail", .string (js "not found"))]) }

/-- A response with status 500 and a body that does not parse. -/
def serverErrorResponse : Response :=
  { status := 500, json := .error (.string (js "SyntaxError")) }

/-- A response with status 400 and the body `{"status": "invalid"}`. -/
def invalidStatusResponse : Response :=
  { status := 400, json := .ok (.object [(js "status", .string (js "invalid"))]) }

/-- Options with two headers of the caller, a string body and one more
option. -/
def sampleOptions : Options :=
  { headers := some [(js "Accept", .string (js "text/plain")),
                     (js "Authorization", .string (js "Basic abc"))]
    body := .text (js "{}")
    others := [(js "method", .string (js "POST"))] }

/-- Options with a `FormData` body and no headers object. -/
def formOptions : Options :=
  { headers := none
    body := .formData [(js "file", js "report.pdf")]
    others := [(js "method", .string (js "POST"))] }

/-- Options with a string body and the given headers. -/
def optionsWithHeaders (headers : Props) : Options :=
  { headers := some headers, body := .text (js "{}"), others := [] }

/-! ## Lemmas on strings and the cookie loop -/

/-- The test of the loop, `cookie.substring(0, name.length + 1) === name + '='`,
holds exactly when the entry starts with the name followed by `=`. -/
theorem substringTo_eq_iff_isPrefixOf (name cookie : JSString) :
    substringTo cookie (name.length + 1) = name ++ [EQUALS] ↔
      (name ++ [EQUALS]).isPrefixOf cookie = true := by
  rw [ List.isPrefixOf_iff_prefix, List.prefix_iff_eq_take]
  simp only [substringTo, List.length_append, List.length_singleton]
  exact eq_comm

/-- The loop finds the first of the trimmed entries that starts with `name=`
and decodes what follows the `=`. -/
theorem getCookieLoop_eq (name : JSString) (entries : List JSString) :
    getCookieLoop name entries =
      match (entries.map trim).find? fun entry => (name ++ [EQUALS]).isPrefixOf entry with
      | none => .ok .null
      | some entry =>
        match decodeURIComponent (entry.drop (name ++ [EQUALS]).length) with
        | some value => .ok (.string value)
        | none => .error .uriError := by
  induction entries with
  | nil => rfl
  | cons entry entries ih =>
    by_cases h : (name ++ [EQUALS]).isPrefixOf (trim entry) = true
    · have h2 := (substringTo_eq_iff_isPrefixOf name (trim entry)).mpr h
      simp [getCookieLoop, h2, h, List.find?, substringFrom]
    · have h2 : ¬ substringTo (trim entry) (name.length + 1) = name ++ [EQUALS] :=
        fun e => h ((substringTo_eq_iff_isPrefixOf name (trim entry)).mp e)
      simp only [Bool.not_eq_true] at h
      simp [getCookieLoop, h2, h, List.find?, ih]

/-- On every jar and every name `getCookie` is decided by the first matching
entry of the jar: `null` when there is none, and otherwise the outcome of
decoding what follows the `=`. -/
theorem getCookie_eq_of_firstMatchingEntry (jar name : JSString) :
    getCookie jar name =
      match firstMatchingEntry jar name with
      | none => .ok .null
      | some entry =>
        match decodeURIComponent (entry.drop (name ++ [EQUALS]).length) with
        | some value => .ok (.string value)
        | none => .error .uriError := by
  unfold getCookie firstMatchingEntry jarEntries
  by_cases h : jar = []
  · subst h
    simp [split, trim, List.find?]
  · simp only [ne_eq, h, not_false_eq_true, if_true]
    exact getCookieLoop_eq name (split SEMICOLON jar)

/-- The first matching entry is the name, `=`, and a remainder. -/
theorem prefix_of_firstMatchingEntry (jar name entry : JSString)
    (h : firstMatchingEntry jar name = some entry) :
    ∃ raw, entry = name ++ [EQUALS] ++ raw := by
  have hp := List.find?_some h
  rw [ List.isPrefixOf_iff_prefix] at hp
  obtain ⟨raw, hraw⟩ := hp
  exact ⟨raw, hraw.symm⟩

/-- The result of `split` has at least one piece. -/
theorem split_ne_nil (sep : Nat) (s : JSString) : split sep s ≠ [] := by
  cases s with
  | nil => simp [split]
  | cons c rest =>
    unfold split
    by_cases hc : c = sep
    · simp [hc]
    · cases hs : split sep rest <;> simp [hc]

/-- Every code unit of a piece of `split` is a code unit of the string. -/
theorem mem_of_mem_split (sep : Nat) (s : JSString) :
    ∀ piece ∈ split sep s, ∀ c ∈ piece, c ∈ s := by
  induction s with
  | nil => intro piece hp c hc; simp [split] at hp; subst hp; exact hc
  | cons a rest ih =>
    intro piece hp c hc
    unfold split at hp
    by_cases ha : a = sep
    · simp only [ha, if_true, List.mem_cons] at hp
      rcases hp with hp | hp
      · subst hp; simp at hc
      · exact List.mem_cons_of_mem _ (ih piece hp c hc)
    · simp only [ha, if_false] at hp
      cases hs : split sep rest with
      | nil =>
        rw [hs] at hp
        simp only [List.mem_singleton] at hp
        subst hp
        simp only [List.mem_singleton] at hc
        subst hc
        exact List.mem_cons_self _ _
      | cons p ps =>
        rw [hs] at hp
        simp only [List.mem_cons] at hp
        rcases hp with hp | hp
        · subst hp
          rcases List.mem_cons.mp hc with hc | hc
          · subst hc; exact List.mem_cons_self _ _
          · exact List.mem_cons_of_mem _ (ih p (by rw [hs]; exact List.mem_cons_self _ _) c hc)
        · exact List.mem_cons_of_mem _
            (ih piece (by rw [hs]; exact List.mem_cons_of_mem _ hp) c hc)

/-- Every code unit of `trim s` is a code unit of `s`. -/
theorem mem_of_mem_trim (s : JSString) : ∀ c ∈ trim s, c ∈ s := by
  intro c hc
  unfold trim at hc
  rw [List.mem_reverse] at hc
  have h1 := (List.dropWhile_sublist isWhiteSpace).subset hc
  rw [List.mem_reverse] at h1
  exact (List.dropWhile_sublist isWhiteSpace).subset h1

/-- A code unit other than `%` is copied to the result. -/
theorem decodeLoop_cons_of_ne (c : Nat) (rest : JSString) (hc : c ≠ PERCENT) :
    decodeLoop (c :: rest) none = (decodeLoop rest none).map (c :: ·) := by
  match rest with
  | [] => simp [decodeLoop, hc]
  | [a] => simp [decodeLoop, hc]
  | a :: b :: r => simp [decodeLoop, hc]

/-- A string in which no `%` occurs decodes to itself. -/
theorem decodeURIComponent_of_no_percent (s : JSString) (h : PERCENT ∉ s) :
    decodeURIComponent s = some s := by
  unfold decodeURIComponent
  induction s with
  | nil => rfl
  | cons c rest ih =>
    have hc : c ≠ PERCENT := fun e => h (e ▸ List.mem_cons_self _ _)
    have hr : PERCENT ∉ rest := fun m => h (List.mem_cons_of_mem _ m)
    rw [decodeLoop_cons_of_ne c rest hc, ih hr]
    rfl

/-! ## Lemmas on objects -/

/-- Reading a property after a write. -/
theorem getOwn_setProp (obj : Props) (key key2 : JSString) (value : JSValue) :
    getOwn (setProp obj key value) key2 =
      if key = key2 then some value else getOwn obj key2 := by
  induction obj with
  | nil => simp [setProp, getOwn]
  | cons p rest ih =>
    obtain ⟨k, v⟩ := p
    by_cases hk : k = key
    · subst hk
      by_cases h2 : k = key2 <;> simp [setProp, getOwn, h2]
    · by_cases h2 : k = key2
      · subst h2
        have : ¬ key = k := fun e => hk e.symm
        simp [setProp, getOwn, hk, this]
      · simp [setProp, getOwn, hk, h2, ih]

/-- An object has no property under a key that is not among its keys. -/
theorem getOwn_eq_none_of_not_mem (obj : Props) (key : JSString)
    (h : key ∉ obj.map Prod.fst) : getOwn obj key = none := by
  induction obj with
  | nil => rfl
  | cons p rest ih =>
    obtain ⟨k, v⟩ := p
    simp only [List.map_cons, List.mem_cons, not_or] at h
    have hk : ¬ k = key := fun e => h.1 e.symm
    simp [getOwn, hk, ih h.2]

/-- Reading a property after a sequence of writes with distinct keys: the
written value when the key is among them, the former value otherwise. -/
theorem getOwn_foldl_setProp (props : Props) (hkeys : (props.map Prod.fst).Nodup)
    (target : Props) (key : JSString) :
    getOwn (props.foldl (fun obj p => setProp obj p.1 p.2) target) key =
      match getOwn props key with
      | some value => some value
      | none => getOwn target key := by
  induction props generalizing target with
  | nil => rfl
  | cons p rest ih =>
    obtain ⟨k, v⟩ := p
    simp only [List.map_cons, List.nodup_cons] at hkeys
    rw [List.foldl_cons, ih hkeys.2]
    by_cases hk : k = key
    · subst hk
      simp [getOwn, getOwn_eq_none_of_not_mem rest k hkeys.1, getOwn_setProp]
    · simp [getOwn, hk, getOwn_setProp]


/-! ## Lemmas on `apiFetch` -/

/-- When the cookie lookup returns, the first call of a run is the request,
to the given url, with the assembled options. -/
theorem apiFetch_events_of_cookie (env : Env) (url : JSString) (options : Options)
    (csrftoken : JSValue)
    (hcookie : getCookie env.documentCookie (js "csrftoken") = .ok csrftoken) :
    ∃ rest, (apiFetch env url options).events =
      .fetch url (requestOptions env.getItem csrftoken options) :: rest := by
  unfold apiFetch
  rw [hcookie]
  dsimp only
  cases env.fetch url (requestOptions env.getItem csrftoken options) with
  | error reason => exact ⟨[], rfl⟩
  | ok response => exact ⟨(settle response).events, rfl⟩

/-- When the cookie lookup returns and the transport answers, the run is the
request followed by what `settle` does with the response. -/
theorem apiFetch_of_response (env : Env) (url : JSString) (options : Options)
    (csrftoken : JSValue) (response : Response)
    (hcookie : getCookie env.documentCookie (js "csrftoken") = .ok csrftoken)
    (hfetch : env.fetch url (requestOptions env.getItem csrftoken options) = .ok response) :
    (apiFetch env url options).events =
        .fetch url (requestOptions env.getItem csrftoken options) :: (settle response).events ∧
      (apiFetch env url options).result = (settle response).result := by
  unfold apiFetch
  rw [hcookie]
  dsimp only
  rw [hfetch]
  exact ⟨rfl, rfl⟩

/-- Outside the range 200 to 299, `response.ok` is false. -/
theorem ok_eq_false_of_not_range (response : Response)
    (h : ¬ (200 ≤ response.status ∧ response.status ≤ 299)) : response.ok = false := by
  unfold Response.ok
  by_cases h1 : 200 ≤ response.status
  · have h2 : ¬ response.status ≤ 299 := fun h2 => h ⟨h1, h2⟩
    simp [h2]
  · simp [h1]

/-- Inside the range 200 to 299, `response.ok` is true. -/
theorem ok_eq_true_of_range (response : Response)
    (h : 200 ≤ response.status ∧ response.status ≤ 299) : response.ok = true := by
  unfold Response.ok
  simp [h.1, h.2]

/-- The three header names the wrapper writes are distinct. -/
theorem header_names_ne :
    js "Content-Type" ≠ js "X-CSRFToken" ∧ js "Content-Type" ≠ js "Authorization" ∧
    js "X-CSRFToken" ≠ js "Authorization" ∧ js "X-CSRFToken" ≠ js "Content-Type" ∧
    js "Authorization" ≠ js "Content-Type" ∧ js "Authorization" ≠ js "X-CSRFToken" := by
  decide

/-- A property read after a write under another key. -/
theorem getProp_setProp_of_ne (obj : Props) (key key2 : JSString) (value : JSValue)
    (h : key ≠ key2) : getProp (setProp obj key value) key2 = getProp obj key2 := by
  unfold getProp
  rw [getOwn_setProp, if_neg h]

/-- The headers of the assembled options, read under any key: the write of
`Authorization` is looked at first, then that of `X-CSRFToken`, then that of
`Content-Type`, then the headers of the caller. -/
theorem requestOptions_getOwn (getItem : JSString → Option JSString) (csrftoken : JSValue)
    (options : Options) (key : JSString) :
    ∃ headers, (requestOptions getItem csrftoken options).headers = some headers ∧
      getOwn headers key =
        if js "Authorization" = key ∧ ∃ token, getItem (js "apiToken") = some token ∧ token ≠ []
        then (getItem (js "apiToken")).map fun token => .string (js "Token " ++ token)
        else if js "X-CSRFToken" = key ∧
            truthy (getProp (options.headers.getD []) (js "X-CSRFToken")) = false
        then some csrftoken
        else if js "Content-Type" = key ∧
            truthy (getProp (options.headers.getD []) (js "Content-Type")) = false ∧
            options.body.instanceofFormData = false
        then some (.string (js "application/json"))
        else getOwn (options.headers.getD []) key := by
  refine ⟨_, rfl, ?_⟩
  obtain ⟨h1, h2, h3, h4, h5, h6⟩ := header_names_ne
  generalize options.headers.getD [] = caller
  cases htok : getItem (js "apiToken") with
  | none =>
    simp only [false_and, exists_false, and_false, if_false]
    by_cases hct : truthy (getProp caller (js "Content-Type")) = true <;>
    by_cases hfd : options.body.instanceofFormData = true <;>
    by_cases hx : truthy (getProp caller (js "X-CSRFToken")) = true <;>
    by_cases hk1 : js "X-CSRFToken" = key <;>
    by_cases hk2 : js "Content-Type" = key <;>
    simp_all [getOwn_setProp, getProp_setProp_of_ne]
  | some token =>
    by_cases hne : token = [] <;>
    by_cases hct : truthy (getProp caller (js "Content-Type")) = true <;>
    by_cases hfd : options.body.instanceofFormData = true <;>
    by_cases hx : truthy (getProp caller (js "X-CSRFToken")) = true <;>
    by_cases hk0 : js "Authorization" = key <;>
    by_cases hk1 : js "X-CSRFToken" = key <;>
    by_cases hk2 : js "Content-Type" = key <;>
    simp_all [getOwn_setProp, getProp_setProp_of_ne]

/-! ## The cookie lookup (C2, C9) -/

/-- C2: on every jar and every name `getCookie` returns the URL-decoded value
of the first entry (left to right, the jar split on `;` and each piece
trimmed) that starts with the name followed by `=`, and `null` when no entry
matches or the jar is empty. On the jar `a=1; csrftoken=abc%20def` the lookup
of `csrftoken` returns `abc def`. -/
theorem getCookie_first_matching_entry :
    (∀ jar name raw value, firstMatchingEntry jar name = some (name ++ [EQUALS] ++ raw) →
        decodeURIComponent raw = some value →
        getCookie jar name = .ok (.string value)) ∧
    (∀ jar name, firstMatchingEntry jar name = none → getCookie jar name = .ok .null) ∧
    (∀ name, getCookie [] name = .ok .null) ∧
    getCookie (js "a=1; csrftoken=abc%20def") (js "csrftoken") =
      .ok (.string (js "abc def")) := by
  refine ⟨?_, ?_, ?_, rfl⟩
  · intro jar name raw value hentry hvalue
    rw [getCookie_eq_of_firstMatchingEntry, hentry]
    dsimp only
    rw [List.drop_left, hvalue]
  · intro jar name hentry
    rw [getCookie_eq_of_firstMatchingEntry, hentry]
  · intro name
    rfl

/-- C9, counterexample: on the jar `csrftoken=%` the lookup of `csrftoken`
raises a `URIError`; it returns neither a string nor `null`. -/
theorem getCookie_raises_on_malformed_value :
    getCookie (js "csrftoken=%") (js "csrftoken") = .error .uriError ∧
    ¬ ∃ value, getCookie (js "csrftoken=%") (js "csrftoken") = .ok value := by
  refine ⟨rfl, ?_⟩
  rintro ⟨value, h⟩
  exact Except.noConfusion ((rfl : getCookie (js "csrftoken=%") (js "csrftoken") = _).symm.trans h)

/-- C9, amended: on every jar and every name `getCookie` completes, and it
returns a string or `null` unless the value of the first matching entry is
not well-formed percent-encoding; exactly then the `URIError` of
`decodeURIComponent` is raised. On a jar without `%` it always returns. -/
theorem getCookie_returns_or_uriError :
    (∀ jar name,
      getCookie jar name = .ok .null ∨
      (∃ value, getCookie jar name = .ok (.string value)) ∨
      (getCookie jar name = .error .uriError ∧
        ∃ raw, firstMatchingEntry jar name = some (name ++ [EQUALS] ++ raw) ∧
          decodeURIComponent raw = none)) ∧
    (∀ jar name raw, firstMatchingEntry jar name = some (name ++ [EQUALS] ++ raw) →
      decodeURIComponent raw = none → getCookie jar name = .error .uriError) ∧
    (∀ jar name, PERCENT ∉ jar →
      getCookie jar name = .ok .null ∨ ∃ value, getCookie jar name = .ok (.string value)) := by
  refine ⟨?_, ?_, ?_⟩
  · intro jar name
    rw [getCookie_eq_of_firstMatchingEntry]
    cases hentry : firstMatchingEntry jar name with
    | none => exact Or.inl rfl
    | some entry =>
      dsimp only
      obtain ⟨raw, rfl⟩ := prefix_of_firstMatchingEntry jar name entry hentry
      rw [List.drop_left]
      cases hvalue : decodeURIComponent raw with
      | none => exact Or.inr (Or.inr ⟨rfl, raw, rfl, hvalue⟩)
      | some value => exact Or.inr (Or.inl ⟨value, rfl⟩)
  · intro jar name raw hentry hvalue
    rw [getCookie_eq_of_firstMatchingEntry, hentry]
    dsimp only
    rw [List.drop_left, hvalue]
  · intro jar name hjar
    rw [getCookie_eq_of_firstMatchingEntry]
    cases hentry : firstMatchingEntry jar name with
    | none => exact Or.inl rfl
    | some entry =>
      dsimp only
      have hmem : entry ∈ jarEntries jar := List.mem_of_find?_eq_some hentry
      obtain ⟨piece, hpiece, rfl⟩ := List.mem_map.mp hmem
      have hno : PERCENT ∉ (trim piece).drop (name ++ [EQUALS]).length := fun m =>
        hjar (mem_of_mem_split SEMICOLON jar piece hpiece _
          (mem_of_mem_trim piece _ (List.mem_of_mem_drop m)))
      rw [decodeURIComponent_of_no_percent _ hno]
      exact Or.inr ⟨_, rfl⟩

/-! ## The request (C3, C4, C5, C6, C10) -/

/-- C3, counterexample: the token store holds the empty string under
`apiToken`, and the request is issued with the caller's `Authorization`
header, not with `Token ` followed by the stored value. -/
theorem apiFetch_empty_token_sets_no_authorization :
    (sampleEnv [] (some []) (.ok okResponse)).getItem (js "apiToken") = some [] ∧
    ∃ issued headers rest,
      (apiFetch (sampleEnv [] (some []) (.ok okResponse)) (js "/api/") sampleOptions).events =
        .fetch (js "/api/") issued :: rest ∧
      issued.headers = some headers ∧
      getOwn headers (js "Authorization") = some (.string (js "Basic abc")) ∧
      getOwn headers (js "Authorization") ≠ some (.string (js "Token " ++ [])) := by
  refine ⟨rfl, _, _, _, rfl, rfl, rfl, ?_⟩
  intro h
  exact absurd (JSValue.string.inj (Option.some.inj h)) (by decide)

/-- C3, amended: while the token store holds a non-empty value under
`apiToken`, the request is issued with `Authorization` equal to `Token `
followed by that value, whatever the caller supplied. -/
theorem apiFetch_authorization_of_token (env : Env) (url : JSString) (options : Options)
    (csrftoken : JSValue) (token : JSString)
    (hcookie : getCookie env.documentCookie (js "csrftoken") = .ok csrftoken)
    (htoken : env.getItem (js "apiToken") = some token) (hne : token ≠ []) :
    ∃ issued headers rest,
      (apiFetch env url options).events = .fetch url issued :: rest ∧
      issued.headers = some headers ∧
      getOwn headers (js "Authorization") = some (.string (js "Token " ++ token)) := by
  obtain ⟨rest, hrest⟩ := apiFetch_events_of_cookie env url options csrftoken hcookie
  obtain ⟨headers, hheaders, hget⟩ :=
    requestOptions_getOwn env.getItem csrftoken options (js "Authorization")
  refine ⟨_, headers, rest, hrest, hheaders, ?_⟩
  rw [hget, htoken]
  simp [hne]

/-- C3, amended, at a call whose options carry `Authorization: Basic abc`
while the store holds `s3cr3t`: the request carries `Token s3cr3t`. -/
theorem apiFetch_authorization_of_token_witness :
    (sampleOptions.headers.bind fun h => getOwn h (js "Authorization")) =
      some (.string (js "Basic abc")) ∧
    ∃ issued headers rest,
      (apiFetch (sampleEnv (js "csrftoken=abc") (some (js "s3cr3t")) (.ok okResponse))
        (js "/api/") sampleOptions).events = .fetch (js "/api/") issued :: rest ∧
      issued.headers = some headers ∧
      getOwn headers (js "Authorization") = some (.string (js "Token s3cr3t")) :=
  ⟨rfl, apiFetch_authorization_of_token
    (sampleEnv (js "csrftoken=abc") (some (js "s3cr3t")) (.ok okResponse))
    (js "/api/") sampleOptions (.string (js "abc")) (js "s3cr3t") rfl rfl (by decide)⟩

/-- C4, counterexample: the caller supplies `X-CSRFToken` explicitly, with the
empty string as its value, and the request is issued with the token of the
cookie, not with the caller's value. -/
theorem apiFetch_replaces_empty_csrf_header :
    getOwn [(js "X-CSRFToken", .string [])] (js "X-CSRFToken") = some (.string []) ∧
    ∃ issued headers rest,
      (apiFetch (sampleEnv (js "csrftoken=abc") none (.ok okResponse)) (js "/api/")
        (optionsWithHeaders [(js "X-CSRFToken", .string [])])).events =
        .fetch (js "/api/") issued :: rest ∧
      issued.headers = some headers ∧
      getOwn headers (js "X-CSRFToken") = some (.string (js "abc")) ∧
      getOwn headers (js "X-CSRFToken") ≠ some (.string []) := by
  refine ⟨rfl, _, _, _, rfl, rfl, rfl, ?_⟩
  intro h
  exact absurd (JSValue.string.inj (Option.some.inj h)) (by decide)

/-- C4, amended: the `X-CSRFToken` header of the issued request is the
caller's value when the caller supplied a truthy one (for a string: a
non-empty one), and otherwise the result of `getCookie("csrftoken")`. -/
theorem apiFetch_csrf_header (env : Env) (url : JSString) (options : Options)
    (csrftoken : JSValue)
    (hcookie : getCookie env.documentCookie (js "csrftoken") = .ok csrftoken) :
    ∃ issued headers rest,
      (apiFetch env url options).events = .fetch url issued :: rest ∧
      issued.headers = some headers ∧
      (truthy (getProp (options.headers.getD []) (js "X-CSRFToken")) = true →
        getOwn headers (js "X-CSRFToken") =
          getOwn (options.headers.getD []) (js "X-CSRFToken")) ∧
      (truthy (getProp (options.headers.getD []) (js "X-CSRFToken")) = false →
        getOwn headers (js "X-CSRFToken") = some csrftoken) := by
  obtain ⟨rest, hrest⟩ := apiFetch_events_of_cookie env url options csrftoken hcookie
  obtain ⟨headers, hheaders, hget⟩ :=
    requestOptions_getOwn env.getItem csrftoken options (js "X-CSRFToken")
  obtain ⟨h1, h2, h3, h4, h5, h6⟩ := header_names_ne
  refine ⟨_, headers, rest, hrest, hheaders, ?_, ?_⟩
  · intro h
    rw [hget]
    simp [h6, h1, h]
  · intro h
    rw [hget]
    simp [h6, h]

/-- C4, amended, at a call without an `X-CSRFToken` header and with the jar
`a=1; csrftoken=abc%20def`: the request carries `abc def`. -/
theorem apiFetch_csrf_header_witness :
    ∃ issued headers rest,
      (apiFetch (sampleEnv (js "a=1; csrftoken=abc%20def") none (.ok okResponse)) (js "/api/")
        sampleOptions).events = .fetch (js "/api/") issued :: rest ∧
      issued.headers = some headers ∧
      getOwn headers (js "X-CSRFToken") = some (.string (js "abc def")) :=
  let ⟨issued, headers, rest, hevents, hheaders, _, hcookie⟩ :=
    apiFetch_csrf_header (sampleEnv (js "a=1; csrftoken=abc%20def") none (.ok okResponse))
      (js "/api/") sampleOptions (.string (js "abc def")) rfl
  ⟨issued, headers, rest, hevents, hheaders, hcookie rfl⟩

/-- C5, counterexample: the caller specifies `Content-Type` with the empty
string as its value and a string body, and the request is issued with
`application/json`, not with the caller's value. -/
theorem apiFetch_replaces_empty_content_type :
    getOwn [(js "Content-Type", .string [])] (js "Content-Type") = some (.string []) ∧
    ∃ issued headers rest,
      (apiFetch (sampleEnv [] none (.ok okResponse)) (js "/api/")
        (optionsWithHeaders [(js "Content-Type", .string [])])).events =
        .fetch (js "/api/") issued :: rest ∧
      issued.headers = some headers ∧
      getOwn headers (js "Content-Type") = some (.string (js "application/json")) ∧
      getOwn headers (js "Content-Type") ≠ some (.string []) := by
  refine ⟨rfl, _, _, _, rfl, rfl, rfl, ?_⟩
  intro h
  exact absurd (JSValue.string.inj (Option.some.inj h)) (by decide)

/-- C5, amended: when the options have no `Content-Type` header (also when
they have no headers object at all), or a falsy one, and the body is not a
`FormData`, the request is issued with `Content-Type: application/json`; when
the caller specified a truthy content type (for a string: a non-empty one),
the caller's value is the one issued. -/
theorem apiFetch_content_type (env : Env) (url : JSString) (options : Options)
    (csrftoken : JSValue)
    (hcookie : getCookie env.documentCookie (js "csrftoken") = .ok csrftoken) :
    ∃ issued headers rest,
      (apiFetch env url options).events = .fetch url issued :: rest ∧
      issued.headers = some headers ∧
      (getOwn (options.headers.getD []) (js "Content-Type") = none →
        options.body.instanceofFormData = false →
        getOwn headers (js "Content-Type") = some (.string (js "application/json"))) ∧
      (truthy (getProp (options.headers.getD []) (js "Content-Type")) = false →
        options.body.instanceofFormData = false →
        getOwn headers (js "Content-Type") = some (.string (js "application/json"))) ∧
      (truthy (getProp (options.headers.getD []) (js "Content-Type")) = true →
        getOwn headers (js "Content-Type") =
          getOwn (options.headers.getD []) (js "Content-Type")) := by
  obtain ⟨rest, hrest⟩ := apiFetch_events_of_cookie env url options csrftoken hcookie
  obtain ⟨headers, hheaders, hget⟩ :=
    requestOptions_getOwn env.getItem csrftoken options (js "Content-Type")
  obtain ⟨h1, h2, h3, h4, h5, h6⟩ := header_names_ne
  have hfalsy : truthy (getProp (options.headers.getD []) (js "Content-Type")) = false →
      options.body.instanceofFormData = false →
      getOwn headers (js "Content-Type") = some (.string (js "application/json")) := by
    intro hfalse hbody
    rw [hget]
    simp [h5, h4, hfalse, hbody]
  refine ⟨_, headers, rest, hrest, hheaders, ?_, hfalsy, ?_⟩
  · intro hnone hbody
    exact hfalsy (by simp [getProp, hnone, truthy]) hbody
  · intro h
    rw [hget]
    simp [h5, h4, h]

/-- C5, amended, at a call without options: the request carries
`Content-Type: application/json`. -/
theorem apiFetch_content_type_witness :
    ∃ issued headers rest,
      (apiFetch (sampleEnv [] none (.ok okResponse)) (js "/api/") Options.empty).events =
        .fetch (js "/api/") issued :: rest ∧
      issued.headers = some headers ∧
      getOwn headers (js "Content-Type") = some (.string (js "application/json")) :=
  let ⟨issued, headers, rest, hevents, hheaders, habsent, _, _⟩ :=
    apiFetch_content_type (sampleEnv [] none (.ok okResponse)) (js "/api/") Options.empty
      .null rfl
  ⟨issued, headers, rest, hevents, hheaders, habsent rfl rfl⟩

/-- C6: when the body is a `FormData`, the wrapper does not set `Content-Type`:
the entry of the issued headers is the one of the caller, and is absent when
the caller supplied none. -/
theorem apiFetch_formData_content_type (env : Env) (url : JSString) (options : Options)
    (csrftoken : JSValue)
    (hcookie : getCookie env.documentCookie (js "csrftoken") = .ok csrftoken)
    (hbody : options.body.instanceofFormData = true) :
    ∃ issued headers rest,
      (apiFetch env url options).events = .fetch url issued :: rest ∧
      issued.headers = some headers ∧
      getOwn headers (js "Content-Type") =
        getOwn (options.headers.getD []) (js "Content-Type") := by
  obtain ⟨rest, hrest⟩ := apiFetch_events_of_cookie env url options csrftoken hcookie
  obtain ⟨headers, hheaders, hget⟩ :=
    requestOptions_getOwn env.getItem csrftoken options (js "Content-Type")
  obtain ⟨h1, h2, h3, h4, h5, h6⟩ := header_names_ne
  refine ⟨_, headers, rest, hrest, hheaders, ?_⟩
  rw [hget]
  simp [h5, h4, hbody]

/-- C6, at a call with a `FormData` body and no headers: the request has no
`Content-Type` entry. -/
theorem apiFetch_formData_content_type_witness :
    ∃ issued headers rest,
      (apiFetch (sampleEnv (js "csrftoken=abc") (some (js "s3cr3t")) (.ok okResponse))
        (js "/api/upload/") formOptions).events = .fetch (js "/api/upload/") issued :: rest ∧
      issued.headers = some headers ∧
      getOwn headers (js "Content-Type") = none :=
  apiFetch_formData_content_type
    (sampleEnv (js "csrftoken=abc") (some (js "s3cr3t")) (.ok okResponse))
    (js "/api/upload/") formOptions (.string (js "abc")) rfl rfl

/-- C10: the request is issued to the given url, with the body and every
other option of the caller unchanged; every header of the caller other than
`Content-Type`, `X-CSRFToken` and `Authorization` is issued with its value,
and so is `Authorization` when the token store has no `apiToken`. -/
theorem apiFetch_passes_options_through (env : Env) (url : JSString) (options : Options)
    (csrftoken : JSValue)
    (hcookie : getCookie env.documentCookie (js "csrftoken") = .ok csrftoken) :
    ∃ issued headers rest,
      (apiFetch env url options).events = .fetch url issued :: rest ∧
      issued.body = options.body ∧ issued.others = options.others ∧
      issued.headers = some headers ∧
      (∀ key, key ≠ js "Content-Type" → key ≠ js "X-CSRFToken" → key ≠ js "Authorization" →
        getOwn headers key = getOwn (options.headers.getD []) key) ∧
      (env.getItem (js "apiToken") = none →
        getOwn headers (js "Authorization") =
          getOwn (options.headers.getD []) (js "Authorization")) := by
  obtain ⟨rest, hrest⟩ := apiFetch_events_of_cookie env url options csrftoken hcookie
  obtain ⟨h1, h2, h3, h4, h5, h6⟩ := header_names_ne
  refine ⟨_, _, rest, hrest, rfl, rfl, rfl, ?_, ?_⟩
  · intro key hct hcsrf hauth
    obtain ⟨headers, hheaders, hget⟩ := requestOptions_getOwn env.getItem csrftoken options key
    rw [Option.some.inj hheaders, hget]
    simp [Ne.symm hct, Ne.symm hcsrf, Ne.symm hauth]
  · intro hnone
    obtain ⟨headers, hheaders, hget⟩ :=
      requestOptions_getOwn env.getItem csrftoken options (js "Authorization")
    rw [Option.some.inj hheaders, hget]
    simp [hnone, h2, h3]

/-- C10, at a call with an `Accept` and an `Authorization` header, a body and
a `method` option, and no `apiToken` in the store: all four are issued as the
caller gave them. -/
theorem apiFetch_passes_options_through_witness :
    ∃ issued headers rest,
      (apiFetch (sampleEnv (js "csrftoken=abc") none (.ok okResponse)) (js "/api/")
        sampleOptions).events = .fetch (js "/api/") issued :: rest ∧
      issued.body = .text (js "{}") ∧
      issued.others = [(js "method", .string (js "POST"))] ∧
      issued.headers = some headers ∧
      getOwn headers (js "Accept") = some (.string (js "text/plain")) ∧
      getOwn headers (js "Authorization") = some (.string (js "Basic abc")) :=
  let ⟨issued, headers, rest, hevents, hbody, hothers, hheaders, hkeep, hauth⟩ :=
    apiFetch_passes_options_through (sampleEnv (js "csrftoken=abc") none (.ok okResponse))
      (js "/api/") sampleOptions (.string (js "abc")) rfl
  ⟨issued, headers, rest, hevents, hbody, hothers, hheaders,
    hkeep (js "Accept") (by decide) (by decide) (by decide), hauth rfl⟩

/-! ## The response (C1, C7, C8) -/

/-- C1, counterexample: a response with status 400 whose body is the object
`{"status": "invalid"}` fails with a value whose `status` field is the string
of the body, not the status code 400. -/
theorem apiFetch_body_status_replaces_code :
    invalidStatusResponse.status = 400 ∧
    invalidStatusResponse.json = .ok (.object [(js "status", .string (js "invalid"))]) ∧
    ∃ thrown,
      (apiFetch (sampleEnv [] none (.ok invalidStatusResponse)) (js "/api/")
        Options.empty).result = .error (.value (.object thrown)) ∧
      getOwn thrown (js "status") = some (.string (js "invalid")) ∧
      getOwn thrown (js "status") ≠ some (.num 400) := by
  refine ⟨rfl, rfl, _, rfl, rfl, ?_⟩
  intro h
  exact JSValue.noConfusion (Option.some.inj h)

/-- C1, amended: for a response whose status is outside the range 200 to 299
and whose body parses as an object (one value per key) that has no `status`
field of its own, `apiFetch` fails with an object whose `status` field is the
status code of the response, which carries every field of the parsed body,
and which has no other field. -/
theorem apiFetch_http_error (env : Env) (url : JSString) (options : Options)
    (csrftoken : JSValue) (response : Response) (props : Props)
    (hcookie : getCookie env.documentCookie (js "csrftoken") = .ok csrftoken)
    (hfetch : env.fetch url (requestOptions env.getItem csrftoken options) = .ok response)
    (hstatus : ¬ (200 ≤ response.status ∧ response.status ≤ 299))
    (hbody : response.json = .ok (.object props))
    (hkeys : (props.map Prod.fst).Nodup)
    (hfield : getOwn props (js "status") = none) :
    ∃ thrown,
      (apiFetch env url options).result = .error (.value (.object thrown)) ∧
      getOwn thrown (js "status") = some (.num response.status) ∧
      (∀ key value, getOwn props key = some value → getOwn thrown key = some value) ∧
      (∀ key, key ≠ js "status" → getOwn thrown key = getOwn props key) := by
  have hrun := (apiFetch_of_response env url options csrftoken response hcookie hfetch).2
  have hok := ok_eq_false_of_not_range response hstatus
  refine ⟨objectSpread [(js "status", .num response.status)] (.object props), ?_, ?_, ?_, ?_⟩
  · rw [hrun]
    simp [settle, hok, hbody]
  · simp only [objectSpread, ownEnumerableProps]
    rw [getOwn_foldl_setProp props hkeys, hfield]
    simp [getOwn]
  · intro key value hget
    simp only [objectSpread, ownEnumerableProps]
    rw [getOwn_foldl_setProp props hkeys, hget]
  · intro key hkey
    simp only [objectSpread, ownEnumerableProps]
    rw [getOwn_foldl_setProp props hkeys]
    cases getOwn props key with
    | some value => rfl
    | none => simp [getOwn, Ne.symm hkey]

/-- C1, amended, at a response with status 404 and the body
`{"detail": "not found"}`: the failure is `{status: 404, detail: "not found"}`. -/
theorem apiFetch_http_error_witness :
    ∃ thrown,
      (apiFetch (sampleEnv (js "csrftoken=abc") none (.ok notFoundResponse)) (js "/api/")
        Options.empty).result = .error (.value (.object thrown)) ∧
      getOwn thrown (js "status") = some (.num 404) ∧
      getOwn thrown (js "detail") = some (.string (js "not found")) :=
  let ⟨thrown, hresult, hcode, hfields, _⟩ :=
    apiFetch_http_error (sampleEnv (js "csrftoken=abc") none (.ok notFoundResponse))
      (js "/api/") Options.empty (.string (js "abc")) notFoundResponse
      [(js "detail", .string (js "not found"))] rfl rfl (by decide) rfl (by decide) rfl
  ⟨thrown, hresult, hcode, hfields (js "detail") _ rfl⟩

/-- C7: for a response with a status in the range 200 to 299, `apiFetch`
returns `null` without a call of `response.json()` when the status is 204, and
otherwise calls `response.json()` and returns the body it parses (and fails as
that call does when it rejects). -/
theorem apiFetch_success (env : Env) (url : JSString) (options : Options)
    (csrftoken : JSValue) (response : Response)
    (hcookie : getCookie env.documentCookie (js "csrftoken") = .ok csrftoken)
    (hfetch : env.fetch url (requestOptions env.getItem csrftoken options) = .ok response)
    (hstatus : 200 ≤ response.status ∧ response.status ≤ 299) :
    (response.status = 204 →
      (apiFetch env url options).result = .ok .null ∧
      (apiFetch env url options).events =
        [.fetch url (requestOptions env.getItem csrftoken options)]) ∧
    (response.status ≠ 204 →
      (apiFetch env url options).events =
        [.fetch url (requestOptions env.getItem csrftoken options), .json] ∧
      (∀ parsed, response.json = .ok parsed →
        (apiFetch env url options).result = .ok parsed) ∧
      (∀ reason, response.json = .error reason →
        (apiFetch env url options).result = .error (.value reason))) := by
  obtain ⟨hevents, hresult⟩ :=
    apiFetch_of_response env url options csrftoken response hcookie hfetch
  have hok := ok_eq_true_of_range response hstatus
  rw [hevents, hresult]
  constructor
  · intro h204
    simp [settle, hok, h204]
  · intro h204
    refine ⟨by simp [settle, hok, h204], ?_, ?_⟩
    · intro parsed hparsed
      simp [settle, hok, h204, hparsed]
    · intro reason hreason
      simp [settle, hok, h204, hreason]

/-- C7, at a response with status 204, whose body would not parse, and at a
response with status 200 and the body `{"id": 7}`: the first call returns
`null` after the request alone, the second returns the parsed body. -/
theorem apiFetch_success_witness :
    ((apiFetch (sampleEnv (js "csrftoken=abc") none (.ok noContentResponse)) (js "/api/")
        Options.empty).result = .ok .null ∧
      (apiFetch (sampleEnv (js "csrftoken=abc") none (.ok noContentResponse)) (js "/api/")
        Options.empty).events =
        [.fetch (js "/api/")
          (requestOptions (sampleEnv (js "csrftoken=abc") none (.ok noContentResponse)).getItem
            (.string (js "abc")) Options.empty)]) ∧
    (apiFetch (sampleEnv (js "csrftoken=abc") none (.ok okResponse)) (js "/api/")
        Options.empty).result = .ok (.object [(js "id", .num 7)]) :=
  ⟨(apiFetch_success (sampleEnv (js "csrftoken=abc") none (.ok noContentResponse))
      (js "/api/") Options.empty (.string (js "abc")) noContentResponse
      rfl rfl (by decide)).1 rfl,
   ((apiFetch_success (sampleEnv (js "csrftoken=abc") none (.ok okResponse))
      (js "/api/") Options.empty (.string (js "abc")) okResponse
      rfl rfl (by decide)).2 (by decide)).2.1 _ rfl⟩

/-- C8: for a response whose status is outside the range 200 to 299 and whose
body is absent or does not parse (`response.json()` rejects), `apiFetch` fails
with an object that has the one field `status`, the status code of the
response. -/
theorem apiFetch_http_error_unparseable (env : Env) (url : JSString) (options : Options)
    (csrftoken : JSValue) (response : Response) (reason : JSValue)
    (hcookie : getCookie env.documentCookie (js "csrftoken") = .ok csrftoken)
    (hfetch : env.fetch url (requestOptions env.getItem csrftoken options) = .ok response)
    (hstatus : ¬ (200 ≤ response.status ∧ response.status ≤ 299))
    (hbody : response.json = .error reason) :
    (apiFetch env url options).result =
      .error (.value (.object [(js "status", .num response.status)])) := by
  have hrun := (apiFetch_of_response env url options csrftoken response hcookie hfetch).2
  have hok := ok_eq_false_of_not_range response hstatus
  rw [hrun]
  simp [settle, hok, hbody, objectSpread, ownEnumerableProps]

/-- C8, at a response with status 500 and a body that does not parse: the
failure is exactly `{status: 500}`. -/
theorem apiFetch_http_error_unparseable_witness :
    (apiFetch (sampleEnv (js "csrftoken=abc") none (.ok serverErrorResponse)) (js "/api/")
        Options.empty).result = .error (.value (.object [(js "status", .num 500)])) :=
  apiFetch_http_error_unparseable
    (sampleEnv (js "csrftoken=abc") none (.ok serverErrorResponse))
    (js "/api/") Options.empty (.string (js "abc")) serverErrorResponse
    (.string (js "SyntaxError")) rfl rfl (by decide) rfl

end ApiJs
